import Mathlib

/-
Shallow embedding of src/azure/login/login.go (package login) from
QurisAI/compose.

The external collaborators of the orchestrator (token store, api helper,
the local callback server, the clock) are modelled as explicit oracle
fields of an environment record, and each operation returns, next to its
Go result, a trace of the token-endpoint network requests it issued and
of the credential-store writes it attempted.  Time is modelled as an
integer number of seconds; the zero time.Time value is Option.none.
-/

/-- Fixed OAuth scope string, constant `scopes` in login.go. -/
def scopes : String := "offline_access https://management.azure.com/.default"

/-- Fixed Azure CLI client id, constant `clientID` in login.go. -/
def clientID : String := "04b07795-8ddb-461a-bbee-02f9e1bf7b46"

/-- Provider token response, struct `azureToken` in login.go
(`Type` is renamed `type_` because `Type` is reserved in Lean). -/
structure AzureToken where
  type_ : String
  scope : String
  expiresIn : Int
  extExpiresIn : Int
  accessToken : String
  refreshToken : String
  foci : String
  deriving DecidableEq, Repr

/-- The oauth2.Token value produced by `toOAuthToken` and stored in the
credential store.  `expiry = none` models the zero time.Time. -/
structure OAuth2Token where
  refreshToken : String
  accessToken : String
  expiry : Option Int
  tokenType : String
  deriving DecidableEq, Repr

/-- Stored credential, struct `TokenInfo` (tenant id + token). -/
structure TokenInfo where
  tenantID : String
  token : OAuth2Token
  deriving DecidableEq, Repr

/-- Go error values as they are built in login.go: `msg` is a
fmt.Errorf message, `errLoginFailed` is errdefs.ErrLoginFailed, and
`wrap s e` is errors.Wrap(e, s). -/
inductive Err where
  | msg : String → Err
  | errLoginFailed : Err
  | wrap : String → Err → Err
  deriving DecidableEq, Repr

/-- url.Values: an association from keys to lists of string values. -/
abbrev FormData := List (String × List String)

/-- Map lookup `vs[key]` on url.Values: the value list when the key is
present, none otherwise (the Go comma-ok idiom). -/
def valuesGet (vs : FormData) (key : String) : Option (List String) :=
  (vs.find? (fun p => p.1 == key)).map Prod.snd

/-- Go fmt %s rendering of a []string, as used for the callback error
values in the message of line 97. -/
def formatStringSlice (xs : List String) : String :=
  "[" ++ String.intercalate " " xs ++ "]"

/-- The fixed early-expiry delta (in seconds) of golang.org/x/oauth2:
Token.expired treats a token as expired expiryDelta before its actual
expiry time. -/
def expiryDelta : Int := 10

/-- golang.org/x/oauth2 Token.expired: false for the zero expiry,
otherwise whether expiry minus expiryDelta is strictly before now. -/
def tokenExpired (now : Int) (t : OAuth2Token) : Bool :=
  match t.expiry with
  | none => false
  | some e => decide (e - expiryDelta < now)

/-- golang.org/x/oauth2 Token.Valid: non-empty access token and not
expired.  This is the validity check `token.Valid()` on line 192. -/
def tokenValid (now : Int) (t : OAuth2Token) : Bool :=
  (t.accessToken != "") && !(tokenExpired now t)

/-- The zero oauth2.Token value returned on the error paths of
GetValidToken. -/
def zeroToken : OAuth2Token :=
  { refreshToken := "", accessToken := "", expiry := none, tokenType := "" }

/-- `toOAuthToken` (login.go lines 151-160): converts a provider token
response into an oauth2.Token whose expiry is the absolute time
now + ExpiresIn seconds. -/
def toOAuthToken (now : Int) (token : AzureToken) : OAuth2Token :=
  { refreshToken := token.refreshToken
    accessToken := token.accessToken
    expiry := some (now + token.expiresIn)
    tokenType := token.type_ }

/-- The url.Values built by `refreshToken` (login.go lines 208-213). -/
def refreshTokenData (currentRefreshToken : String) : FormData :=
  [("grant_type", ["refresh_token"]),
   ("client_id", [clientID]),
   ("scope", [scopes]),
   ("refresh_token", [currentRefreshToken])]

/-- `refreshToken` (login.go lines 207-220): submits the refresh form to
the given tenant's endpoint through the apiHelper oracle `q` and converts
a successful response with `toOAuthToken`.  The second component is the
list of token-endpoint requests issued (always exactly this one). -/
def refreshToken (q : FormData → String → Except Err AzureToken) (now : Int)
    (currentRefreshToken tenantID : String) :
    Except Err OAuth2Token × List (FormData × String) :=
  let data := refreshTokenData currentRefreshToken
  match q data tenantID with
  | .error e => (.error e, [(data, tenantID)])
  | .ok token => (.ok (toOAuthToken now token), [(data, tenantID)])

/-- Environment of one GetValidToken call: the clock, the outcome of
tokenStore.readToken, the apiHelper.queryToken oracle, and the outcome
of tokenStore.writeLoginInfo. -/
structure GetTokenEnv where
  now : Int
  readResult : Except Err TokenInfo
  queryToken : FormData → String → Except Err AzureToken
  writeResult : Option Err

/-- Result of one GetValidToken call: the Go return pair (token, error)
plus the trace of token-endpoint requests issued and of store writes
attempted. -/
structure GetTokenRes where
  token : OAuth2Token
  error : Option Err
  tokenRequests : List (FormData × String)
  writes : List TokenInfo
  deriving DecidableEq, Repr

/-- `GetValidToken` (login.go lines 186-205): read the stored credential,
return its token unchanged when still valid, otherwise refresh against
the stored tenant and persist the new credential before returning it. -/
def GetValidToken (env : GetTokenEnv) : GetTokenRes :=
  match env.readResult with
  | .error e => ⟨zeroToken, some e, [], []⟩
  | .ok loginInfo =>
    let token := loginInfo.token
    if tokenValid env.now token then
      ⟨token, none, [], []⟩
    else
      let tenantID := loginInfo.tenantID
      match refreshToken env.queryToken env.now token.refreshToken tenantID with
      | (.error e, reqs) =>
        ⟨zeroToken,
         some (.wrap "access token request failed. Maybe you need to login to azure again." e),
         reqs, []⟩
      | (.ok newTok, reqs) =>
        match env.writeResult with
        | some e => ⟨zeroToken, some e, reqs, [⟨tenantID, newTok⟩]⟩
        | none => ⟨newTok, none, reqs, [⟨tenantID, newTok⟩]⟩

/-- What the select on lines 91-94 observes: either ctx.Done fires first
or the callback channel delivers query values. -/
inductive LoginEvent where
  | cancelled : LoginEvent
  | delivered : FormData → LoginEvent

/-- Outcome of Login: nil error, a Go error, or a runtime fault
(an index-out-of-range panic). -/
inductive LoginOutcome where
  | ok : LoginOutcome
  | err : Err → LoginOutcome
  | fault : String → LoginOutcome
  deriving DecidableEq, Repr

/-- Environment of one Login call: the clock, the outcome of
startLoginServer, the select outcome, the apiHelper.queryToken oracle,
the apiHelper.queryAuthorizationAPI response (body, status code, error),
the outcome of json.Unmarshal on that body (as the tenant id list), and
the outcome of tokenStore.writeLoginInfo. -/
structure LoginEnv where
  now : Int
  startServer : Except Err Nat
  event : LoginEvent
  queryToken : FormData → String → Except Err AzureToken
  authAPIBits : String
  authAPIStatus : Int
  authAPIErr : Option Err
  parseTenants : Except Err (List String)
  writeResult : Option Err

/-- Result of one Login call: the outcome plus the trace of
token-endpoint requests issued and of store writes attempted. -/
structure LoginRes where
  outcome : LoginOutcome
  tokenRequests : List (FormData × String)
  writes : List TokenInfo
  deriving DecidableEq, Repr

/-- The url.Values of the authorization-code exchange
(login.go lines 103-109). -/
def authCodeData (code : List String) (redirectURL : String) : FormData :=
  [("grant_type", ["authorization_code"]),
   ("client_id", [clientID]),
   ("code", code),
   ("scope", [scopes]),
   ("redirect_uri", [redirectURL])]

/-- `Login` (login.go lines 81-144).  Mirrors the control flow: start the
callback server, race cancellation against the delivered callback, check
the error and code keys, exchange the code against "organizations",
discover tenants, take the first tenant id (Value[0] faults on an empty
list), rebind with refreshToken, persist.  Only the final step writes. -/
def Login (env : LoginEnv) : LoginRes :=
  match env.startServer with
  | .error e => ⟨.err e, [], []⟩
  | .ok serverPort =>
    let redirectURL := "http://localhost:" ++ toString serverPort
    match env.event with
    | .cancelled => ⟨.ok, [], []⟩
    | .delivered qsValues =>
      match valuesGet qsValues "error" with
      | some errorMsg =>
        ⟨.err (.msg ("login failed : " ++ formatStringSlice errorMsg)), [], []⟩
      | none =>
        match valuesGet qsValues "code" with
        | none => ⟨.err .errLoginFailed, [], []⟩
        | some code =>
          let data := authCodeData code redirectURL
          match env.queryToken data "organizations" with
          | .error e => ⟨.err (.wrap "Access token request failed" e), [(data, "organizations")], []⟩
          | .ok token =>
            match env.authAPIErr with
            | some e => ⟨.err (.wrap "login failed" e), [(data, "organizations")], []⟩
            | none =>
              if env.authAPIStatus = 200 then
                match env.parseTenants with
                | .error e => ⟨.err (.wrap "login failed" e), [(data, "organizations")], []⟩
                | .ok [] => ⟨.fault "index out of range", [(data, "organizations")], []⟩
                | .ok (tenantID :: _) =>
                  match refreshToken env.queryToken env.now token.refreshToken tenantID with
                  | (.error e, reqs) =>
                    ⟨.err (.wrap "login failed" e), (data, "organizations") :: reqs, []⟩
                  | (.ok tenantToken, reqs) =>
                    let loginInfo : TokenInfo := ⟨tenantID, tenantToken⟩
                    match env.writeResult with
                    | some e =>
                      ⟨.err (.wrap "login failed" e), (data, "organizations") :: reqs, [loginInfo]⟩
                    | none => ⟨.ok, (data, "organizations") :: reqs, [loginInfo]⟩
              else
                ⟨.err (.msg ("login failed : " ++ env.authAPIBits)), [(data, "organizations")], []⟩

/-- Outcome of `openbrowser`: either the spawn started fine, or
log.Fatal was reached (which terminates the whole process, so the login
attempt cannot continue). -/
inductive OpenOutcome where
  | ok : OpenOutcome
  | fatalExit : String → OpenOutcome
  deriving DecidableEq, Repr

/-- The platform switch of `openbrowser` (login.go lines 225-234):
the command and arguments spawned on each supported GOOS, none on an
unsupported platform. -/
def browserCommand (goos : String) (url : String) : Option (String × List String) :=
  match goos with
  | "linux" => some ("xdg-open", [url])
  | "windows" => some ("rundll32", ["url.dll,FileProtocolHandler", url])
  | "darwin" => some ("open", [url])
  | _ => none

/-- `openbrowser` (login.go lines 222-238).  `spawn` is the
exec.Command(...).Start() oracle, returning an error message when the
spawn fails.  The Nat counts spawn attempts (never more than one: no
retry).  Any error, including the unsupported-platform one, reaches
log.Fatal, modelled as `fatalExit`. -/
def openbrowser (spawn : String → List String → Option String)
    (goos url : String) : OpenOutcome × Nat :=
  match browserCommand goos url with
  | some (cmd, args) =>
    match spawn cmd args with
    | none => (.ok, 1)
    | some e => (.fatalExit e, 1)
  | none => (.fatalExit "unsupported platform", 0)

/-! Concrete inputs used by the witnesses and counterexamples. -/

/-- A sample provider token response. -/
def sampleAzureToken : AzureToken :=
  { type_ := "Bearer", scope := scopes, expiresIn := 3599, extExpiresIn := 3599,
    accessToken := "at", refreshToken := "rt", foci := "1" }

/-- A Login environment whose tenant discovery returns status 200 with an
empty value array, everything else succeeding. -/
def emptyTenantsEnv : LoginEnv :=
  { now := 0
    startServer := .ok 8080
    event := .delivered [("code", ["authcode"])]
    queryToken := fun _ _ => .ok sampleAzureToken
    authAPIBits := "tenantlist"
    authAPIStatus := 200
    authAPIErr := none
    parseTenants := .ok []
    writeResult := none }

/-- C1: a tenant-discovery response with status 200 and an empty value
array does not produce a LoginFailed error: line 125 of login.go indexes
Value[0] of the empty slice, an index-out-of-range runtime fault, and no
store write happens.  This evaluates the code at the failing input of
the code_bug verdict. -/
theorem login_empty_tenants_faults :
    (Login emptyTenantsEnv).outcome = .fault "index out of range" ∧
    (Login emptyTenantsEnv).writes = [] := by
  constructor <;> rfl

/-- A Login environment in which cancellation fires before any callback
parameters are delivered. -/
def cancelledEnv : LoginEnv :=
  { now := 0
    startServer := .ok 8080
    event := .cancelled
    queryToken := fun _ _ => .error (.msg "unused")
    authAPIBits := ""
    authAPIStatus := 0
    authAPIErr := none
    parseTenants := .error (.msg "unused")
    writeResult := none }

/-- C5: when the listener started and the cancellation signal fires
before the callback delivers query parameters, Login returns success
with no error, issues no token request and writes nothing to the store
(lines 91-93 of login.go). -/
theorem login_cancelled_ok (env : LoginEnv) (port : Nat)
    (hs : env.startServer = .ok port) (he : env.event = .cancelled) :
    Login env = ⟨.ok, [], []⟩ := by
  simp [Login, hs, he]

/-- C5 witness: the cancelled environment at port 8080. -/
theorem login_cancelled_ok_witness :
    Login cancelledEnv = ⟨.ok, [], []⟩ :=
  login_cancelled_ok cancelledEnv 8080 rfl rfl

/-- A Login environment whose callback delivers error=access_denied. -/
def accessDeniedEnv : LoginEnv :=
  { now := 0
    startServer := .ok 8080
    event := .delivered [("error", ["access_denied"])]
    queryToken := fun _ _ => .error (.msg "unused")
    authAPIBits := ""
    authAPIStatus := 0
    authAPIErr := none
    parseTenants := .error (.msg "unused")
    writeResult := none }

/-- C6: for a delivered callback query, an error key makes Login fail
with the login-failed message built from that key's values (line 97); a
query without an error key and without a code key makes Login fail with
errdefs.ErrLoginFailed (line 101).  Neither path issues a token request
or writes to the store. -/
theorem login_callback_error_or_missing_code (env : LoginEnv) (port : Nat)
    (qs : FormData)
    (hs : env.startServer = .ok port) (he : env.event = .delivered qs)
    (hcode : valuesGet qs "error" = none → valuesGet qs "code" = none) :
    Login env =
      (match valuesGet qs "error" with
       | some msgs =>
         ⟨.err (.msg ("login failed : " ++ formatStringSlice msgs)), [], []⟩
       | none => ⟨.err .errLoginFailed, [], []⟩) := by
  cases herr : valuesGet qs "error" with
  | none => simp [Login, hs, he, herr, hcode herr]
  | some msgs => simp [Login, hs, he, herr]

/-- C6 witness: the access-denied callback environment. -/
theorem login_callback_error_witness :
    Login accessDeniedEnv =
      (match valuesGet [("error", ["access_denied"])] "error" with
       | some msgs =>
         ⟨.err (.msg ("login failed : " ++ formatStringSlice msgs)), [], []⟩
       | none => ⟨.err .errLoginFailed, [], []⟩) :=
  login_callback_error_or_missing_code accessDeniedEnv 8080
    [("error", ["access_denied"])] rfl rfl (by decide)

/-- A Login environment whose callback delivers both an error key and a
code key. -/
def errorAndCodeEnv : LoginEnv :=
  { now := 0
    startServer := .ok 8080
    event := .delivered [("error", ["access_denied"]), ("code", ["authcode"])]
    queryToken := fun _ _ => .ok sampleAzureToken
    authAPIBits := ""
    authAPIStatus := 200
    authAPIErr := none
    parseTenants := .ok ["tenant1"]
    writeResult := none }

/-- C9: when the delivered query carries both an error key and a code
key, the error check on line 95 runs first, so Login fails with the
error-key message and the code is never exchanged: no token-endpoint
request is issued and nothing is written. -/
theorem login_error_key_precedes_code (env : LoginEnv) (port : Nat)
    (qs : FormData) (msgs code : List String)
    (hs : env.startServer = .ok port) (he : env.event = .delivered qs)
    (herr : valuesGet qs "error" = some msgs)
    (hcode : valuesGet qs "code" = some code) :
    (Login env).outcome = .err (.msg ("login failed : " ++ formatStringSlice msgs)) ∧
    (Login env).tokenRequests = [] ∧
    (Login env).writes = [] := by
  simp [Login, hs, he, herr]

/-- C9 witness: callback with error=access_denied and code=authcode. -/
theorem login_error_key_precedes_code_witness :
    (Login errorAndCodeEnv).outcome =
      .err (.msg ("login failed : " ++ formatStringSlice ["access_denied"])) ∧
    (Login errorAndCodeEnv).tokenRequests = [] ∧
    (Login errorAndCodeEnv).writes = [] :=
  login_error_key_precedes_code errorAndCodeEnv 8080
    [("error", ["access_denied"]), ("code", ["authcode"])]
    ["access_denied"] ["authcode"] rfl rfl (by decide) (by decide)

/-- A stored token whose expiry is 5 seconds in the future of time 0. -/
def almostExpiredToken : OAuth2Token :=
  { refreshToken := "rt", accessToken := "at", expiry := some 5, tokenType := "Bearer" }

/-- A GetValidToken environment at time 0 holding `almostExpiredToken`;
the network is unreachable, so any refresh attempt fails. -/
def gracePeriodEnv : GetTokenEnv :=
  { now := 0
    readResult := .ok ⟨"tenant1", almostExpiredToken⟩
    queryToken := fun _ _ => .error (.msg "network unreachable")
    writeResult := none }

/-- C2 counterexample: the stored token's expiry (5) is strictly in the
future of the call time (0), yet GetValidToken issues a refresh network
call and does not return the stored token unchanged: token.Valid() of
golang.org/x/oauth2 subtracts a fixed 10-second early-expiry delta, so
the claim as stated is false. -/
theorem getValidToken_strict_future_cex :
    (0 : Int) < 5 ∧
    (GetValidToken gracePeriodEnv).tokenRequests =
      [(refreshTokenData "rt", "tenant1")] ∧
    (GetValidToken gracePeriodEnv).token ≠ almostExpiredToken ∧
    (GetValidToken gracePeriodEnv).error ≠ none := by
  refine ⟨by decide, rfl, by decide, by decide⟩

/-- C2 amended: when the stored token has a non-empty access token and
its expiry is either unset or at least expiryDelta (10 seconds) in the
future, GetValidToken returns that token unchanged, with no error, no
network call and no store write. -/
theorem getValidToken_fresh_no_refresh (env : GetTokenEnv) (ti : TokenInfo)
    (hread : env.readResult = .ok ti)
    (haccess : ti.token.accessToken ≠ "")
    (hfresh : ∀ e, ti.token.expiry = some e → env.now + expiryDelta ≤ e) :
    GetValidToken env = ⟨ti.token, none, [], []⟩ := by
  have hvalid : tokenValid env.now ti.token = true := by
    unfold tokenValid tokenExpired
    cases hx : ti.token.expiry with
    | none => simp [haccess]
    | some e =>
      have h10 := hfresh e hx
      have hlt : ¬ (e - expiryDelta < env.now) := by
        simp only [expiryDelta] at h10 ⊢
        omega
      simp [haccess, hlt]
  simp [GetValidToken, hread, hvalid]

/-- A GetValidToken environment at time 0 holding a token that expires
at time 100. -/
def freshTokenEnv : GetTokenEnv :=
  { now := 0
    readResult := .ok ⟨"tenant1",
      { refreshToken := "rt", accessToken := "at", expiry := some 100, tokenType := "Bearer" }⟩
    queryToken := fun _ _ => .error (.msg "network unreachable")
    writeResult := none }

/-- C2 witness: the fresh-token environment. -/
theorem getValidToken_fresh_no_refresh_witness :
    GetValidToken freshTokenEnv =
      ⟨{ refreshToken := "rt", accessToken := "at", expiry := some 100, tokenType := "Bearer" },
       none, [], []⟩ :=
  getValidToken_fresh_no_refresh freshTokenEnv
    ⟨"tenant1", { refreshToken := "rt", accessToken := "at", expiry := some 100, tokenType := "Bearer" }⟩
    rfl (by decide)
    (by intro e he
        simp only [Option.some.injEq] at he
        simp only [freshTokenEnv, expiryDelta]
        omega)

/-- C3: when the stored credential is read and its token fails the
validity check (in particular when it is expired), GetValidToken issues
the refresh exchange exactly once — the request trace is the single
refresh request against the stored tenant.  On refresh failure the error
is the AuthError wrapped with the re-login hint and nothing is written
to the store; on refresh success the new credential (same tenant id, new
token) is written, and when that write succeeds the new token is
returned. -/
theorem getValidToken_stale_refresh_once (env : GetTokenEnv) (ti : TokenInfo)
    (hread : env.readResult = .ok ti)
    (hstale : tokenValid env.now ti.token = false) :
    (GetValidToken env).tokenRequests =
      [(refreshTokenData ti.token.refreshToken, ti.tenantID)] ∧
    (GetValidToken env).writes =
      (match env.queryToken (refreshTokenData ti.token.refreshToken) ti.tenantID with
       | .error _ => []
       | .ok tok => [⟨ti.tenantID, toOAuthToken env.now tok⟩]) ∧
    (GetValidToken env).error =
      (match env.queryToken (refreshTokenData ti.token.refreshToken) ti.tenantID,
             env.writeResult with
       | .error e, _ =>
         some (.wrap "access token request failed. Maybe you need to login to azure again." e)
       | .ok _, some e => some e
       | .ok _, none => none) ∧
    (GetValidToken env).token =
      (match env.queryToken (refreshTokenData ti.token.refreshToken) ti.tenantID,
             env.writeResult with
       | .ok tok, none => toOAuthToken env.now tok
       | _, _ => zeroToken) := by
  cases hq : env.queryToken (refreshTokenData ti.token.refreshToken) ti.tenantID with
  | error e => simp [GetValidToken, hread, hstale, refreshToken, hq]
  | ok tok =>
    cases hw : env.writeResult with
    | none => simp [GetValidToken, hread, hstale, refreshToken, hq, hw]
    | some e => simp [GetValidToken, hread, hstale, refreshToken, hq, hw]

/-- A GetValidToken environment at time 0 holding an expired token; the
refresh succeeds against the stored tenant, and the store write
succeeds. -/
def expiredRefreshEnv : GetTokenEnv :=
  { now := 0
    readResult := .ok ⟨"tenant1",
      { refreshToken := "rt", accessToken := "at", expiry := some (-100), tokenType := "Bearer" }⟩
    queryToken := fun _ tid => if tid == "tenant1" then .ok sampleAzureToken else .error (.msg "wrong tenant")
    writeResult := none }

/-- C3 witness: the expired-token environment with a succeeding
refresh. -/
theorem getValidToken_stale_refresh_once_witness :
    (GetValidToken expiredRefreshEnv).tokenRequests =
      [(refreshTokenData "rt", "tenant1")] ∧
    (GetValidToken expiredRefreshEnv).writes =
      (match expiredRefreshEnv.queryToken (refreshTokenData "rt") "tenant1" with
       | .error _ => []
       | .ok tok => [⟨"tenant1", toOAuthToken 0 tok⟩]) ∧
    (GetValidToken expiredRefreshEnv).error =
      (match expiredRefreshEnv.queryToken (refreshTokenData "rt") "tenant1",
             expiredRefreshEnv.writeResult with
       | .error e, _ =>
         some (.wrap "access token request failed. Maybe you need to login to azure again." e)
       | .ok _, some e => some e
       | .ok _, none => none) ∧
    (GetValidToken expiredRefreshEnv).token =
      (match expiredRefreshEnv.queryToken (refreshTokenData "rt") "tenant1",
             expiredRefreshEnv.writeResult with
       | .ok tok, none => toOAuthToken 0 tok
       | _, _ => zeroToken) :=
  getValidToken_stale_refresh_once expiredRefreshEnv
    ⟨"tenant1", { refreshToken := "rt", accessToken := "at", expiry := some (-100), tokenType := "Bearer" }⟩
    rfl (by decide)

/-- C10: when the stored token fails the validity check, the refresh
exchange succeeds, but the subsequent store write fails, GetValidToken
returns the zero-value token together with the write error — the freshly
refreshed token is discarded even though the refresh succeeded (lines
200-203 of login.go). -/
theorem getValidToken_write_failure_discards (env : GetTokenEnv)
    (ti : TokenInfo) (tok : AzureToken) (e : Err)
    (hread : env.readResult = .ok ti)
    (hstale : tokenValid env.now ti.token = false)
    (hrefresh : env.queryToken (refreshTokenData ti.token.refreshToken) ti.tenantID = .ok tok)
    (hwrite : env.writeResult = some e) :
    GetValidToken env =
      ⟨zeroToken, some e,
       [(refreshTokenData ti.token.refreshToken, ti.tenantID)],
       [⟨ti.tenantID, toOAuthToken env.now tok⟩]⟩ := by
  simp [GetValidToken, hread, hstale, refreshToken, hrefresh, hwrite]

/-- A GetValidToken environment whose refresh succeeds but whose store
write fails with a disk-full error. -/
def writeFailEnv : GetTokenEnv :=
  { now := 0
    readResult := .ok ⟨"tenant1",
      { refreshToken := "rt", accessToken := "at", expiry := some (-100), tokenType := "Bearer" }⟩
    queryToken := fun _ _ => .ok sampleAzureToken
    writeResult := some (.msg "disk full") }

/-- C10 witness: the failing-write environment. -/
theorem getValidToken_write_failure_discards_witness :
    GetValidToken writeFailEnv =
      ⟨zeroToken, some (.msg "disk full"),
       [(refreshTokenData "rt", "tenant1")],
       [⟨"tenant1", toOAuthToken 0 sampleAzureToken⟩]⟩ :=
  getValidToken_write_failure_discards writeFailEnv
    ⟨"tenant1", { refreshToken := "rt", accessToken := "at", expiry := some (-100), tokenType := "Bearer" }⟩
    sampleAzureToken (.msg "disk full") rfl (by decide) rfl rfl

/-- C7: every refresh exchange — Login line 126 and GetValidToken line
196 both go through `refreshToken` — issues exactly one request, whose
form carries grant_type=refresh_token, the unchanged fixed scope string
and the given refresh token, against the given tenant's endpoint; its
result is the provider response mapped through `toOAuthToken`, whose
expiry is the absolute time now + expires-in seconds. -/
theorem refreshToken_request_shape (q : FormData → String → Except Err AzureToken)
    (now : Int) (rt tid : String) (tok : AzureToken) :
    (refreshToken q now rt tid).2 = [(refreshTokenData rt, tid)] ∧
    (refreshToken q now rt tid).1 =
      Except.map (toOAuthToken now) (q (refreshTokenData rt) tid) ∧
    valuesGet (refreshTokenData rt) "grant_type" = some ["refresh_token"] ∧
    valuesGet (refreshTokenData rt) "scope" = some [scopes] ∧
    valuesGet (refreshTokenData rt) "refresh_token" = some [rt] ∧
    (toOAuthToken now tok).expiry = some (now + tok.expiresIn) := by
  refine ⟨?_, ?_, rfl, rfl, rfl, rfl⟩
  · cases hq : q (refreshTokenData rt) tid <;> simp [refreshToken, hq]
  · cases hq : q (refreshTokenData rt) tid <;> simp [refreshToken, hq, Except.map]

/-- C8: on every supported platform, when spawning the
browser-opening command fails, `openbrowser` reaches log.Fatal — which
terminates the process, so the login attempt cannot proceed or silently
succeed — after exactly one spawn attempt (no retry), per lines 222-238
of login.go. -/
theorem openbrowser_spawn_failure_fatal
    (spawn : String → List String → Option String)
    (goos url cmd : String) (args : List String) (e : String)
    (hcmd : browserCommand goos url = some (cmd, args))
    (hfail : spawn cmd args = some e) :
    openbrowser spawn goos url = (.fatalExit e, 1) ∧
    (OpenOutcome.fatalExit e ≠ .ok) := by
  refine ⟨by simp [openbrowser, hcmd, hfail], by simp⟩

/-- C8 witness: a linux spawn that fails with an exec error. -/
theorem openbrowser_spawn_failure_fatal_witness :
    openbrowser (fun _ _ => some "exec format error") "linux" "http://localhost:8080" =
      (.fatalExit "exec format error", 1) ∧
    (OpenOutcome.fatalExit "exec format error" ≠ .ok) :=
  openbrowser_spawn_failure_fatal (fun _ _ => some "exec format error")
    "linux" "http://localhost:8080" "xdg-open" ["http://localhost:8080"]
    "exec format error" rfl rfl

/-- C4: the credential store is written during Login only after every
preceding step has succeeded.  Contrapositively, every failure path —
callback error key, missing code, token-exchange failure, discovery
error or non-200 status, malformed discovery body, tenant-scoped
refresh failure — attempts no store write, leaving any prior credential
untouched: whenever a write was attempted, the callback delivered an
error-free query with a code, the code exchange against "organizations"
succeeded, tenant discovery returned status 200 with a parseable
non-empty tenant list, and the tenant-scoped refresh succeeded. -/
theorem login_write_only_after_success (env : LoginEnv)
    (h : (Login env).writes ≠ []) :
    ∃ port qs code token tenantID rest tok,
      env.startServer = .ok port ∧
      env.event = .delivered qs ∧
      valuesGet qs "error" = none ∧
      valuesGet qs "code" = some code ∧
      env.queryToken (authCodeData code ("http://localhost:" ++ toString port))
        "organizations" = .ok token ∧
      env.authAPIErr = none ∧
      env.authAPIStatus = 200 ∧
      env.parseTenants = .ok (tenantID :: rest) ∧
      env.queryToken (refreshTokenData token.refreshToken) tenantID = .ok tok := by
  cases hs : env.startServer with
  | error e => simp [Login, hs] at h
  | ok port =>
    cases he : env.event with
    | cancelled => simp [Login, hs, he] at h
    | delivered qs =>
      cases herr : valuesGet qs "error" with
      | some m => simp [Login, hs, he, herr] at h
      | none =>
        cases hcode : valuesGet qs "code" with
        | none => simp [Login, hs, he, herr, hcode] at h
        | some code =>
          cases hq : env.queryToken
              (authCodeData code ("http://localhost:" ++ toString port))
              "organizations" with
          | error e => simp [Login, hs, he, herr, hcode, hq] at h
          | ok token =>
            cases hapi : env.authAPIErr with
            | some e => simp [Login, hs, he, herr, hcode, hq, hapi] at h
            | none =>
              by_cases hstat : env.authAPIStatus = 200
              · cases hp : env.parseTenants with
                | error e =>
                  simp [Login, hs, he, herr, hcode, hq, hapi, hstat, hp] at h
                | ok tenants =>
                  cases tenants with
                  | nil =>
                    simp [Login, hs, he, herr, hcode, hq, hapi, hstat, hp] at h
                  | cons tenantID rest =>
                    cases hq2 : env.queryToken
                        (refreshTokenData token.refreshToken) tenantID with
                    | error e =>
                      simp [Login, hs, he, herr, hcode, hq, hapi, hstat, hp,
                        refreshToken, hq2] at h
                    | ok tok =>
                      exact ⟨port, qs, code, token, tenantID, rest, tok,
                        rfl, rfl, herr, hcode, hq, rfl, hstat, rfl, hq2⟩
              · simp [Login, hs, he, herr, hcode, hq, hapi, hstat] at h

/-- A Login environment in which every step succeeds. -/
def fullLoginEnv : LoginEnv :=
  { now := 0
    startServer := .ok 8080
    event := .delivered [("code", ["authcode"])]
    queryToken := fun _ _ => .ok sampleAzureToken
    authAPIBits := "tenantlist"
    authAPIStatus := 200
    authAPIErr := none
    parseTenants := .ok ["tenant1"]
    writeResult := none }

/-- C4 witness: in the all-success environment a write is attempted, and
the theorem recovers the success of every preceding step. -/
theorem login_write_only_after_success_witness :
    (Login fullLoginEnv).writes ≠ [] ∧
    (∃ port qs code token tenantID rest tok,
      fullLoginEnv.startServer = .ok port ∧
      fullLoginEnv.event = .delivered qs ∧
      valuesGet qs "error" = none ∧
      valuesGet qs "code" = some code ∧
      fullLoginEnv.queryToken (authCodeData code ("http://localhost:" ++ toString port))
        "organizations" = .ok token ∧
      fullLoginEnv.authAPIErr = none ∧
      fullLoginEnv.authAPIStatus = 200 ∧
      fullLoginEnv.parseTenants = .ok (tenantID :: rest) ∧
      fullLoginEnv.queryToken (refreshTokenData token.refreshToken) tenantID = .ok tok) :=
  ⟨by decide, login_write_only_after_success fullLoginEnv (by decide)⟩
